import Mathlib

/-!
Verification of the real-time voice conversation session engine
(audio WebSocket service plus its AI chat backend client).

The definitions below are a shallow embedding of the JavaScript source:
  - src/services/audioWebSocketService.js  (session handler, gateway, cleanup)
  - the AIChatService (sendChatMessage, generateThreadId)
Stateful handlers become pure functions from a session state and an
environment (backend outcome, store lookups, generated identifiers) to a
new state plus a list of observable effects (outbound frames, store
writes, capability invocations).  Bytes are modelled as Nat, buffers as
List Nat.  JavaScript truthiness on optional strings (empty string is
falsy) is modelled by jsTruthy.
-/

namespace Imago

/-- Connection readyState: the guard in sendMessage and in the TTS send
loop checks ws.readyState === WebSocket.OPEN. -/
inductive WsState
  | opened
  | closed
deriving DecidableEq, Repr

/-- Outbound JSON frame types emitted by the service (field type in the
JSON object), with the payload fields the handlers set. -/
inductive Frame
  | connected (sessionId : String) (userId : Option String) (message : String)
  | status (message : String)
  | interimTranscript (transcript : String)
  | finalTranscript (transcript : String)
  | llmProcessing (message : String)
  | llmComplete (message : String)
  | errorFrame (message : String)
  | ttsError (message : String)
deriving DecidableEq, Repr

/-- A persisted conversation record (ChatConversation model fields used
by the audio service). Timestamps are Nat ticks. -/
structure Conversation where
  id : Nat
  userId : String
  threadId : String
  title : String
  lastMessage : String
  lastMessageAt : Nat
  messageCount : Nat
deriving DecidableEq, Repr

/-- A persisted chat message record (ChatMessage model fields used by the
audio service).  aiResponseTime is absent on user turns. -/
structure ChatMessageRec where
  conversationId : Nat
  userId : String
  threadId : String
  messageType : String
  contentType : String
  content : String
  attachmentType : Option String
  aiResponseTime : Option Nat
deriving DecidableEq, Repr

/-- The slice of the backend JSON body the service reads: only the
response field of response.data is ever accessed. -/
structure AIData where
  response : Option String
deriving DecidableEq, Repr

/-- The object sendChatMessage returns: on success
(success, data := response.data, processingTime); on error
(success := false, data := error.response?.data or null); the
top-level response field is never set by either branch but is probed
by the caller's fallback chain. -/
structure AIResponse where
  success : Bool
  data : Option AIData
  response : Option String
  processingTime : Option Nat
deriving DecidableEq, Repr

/-- Outcome of the axios POST inside sendChatMessage: either an HTTP
success carrying response.data, or a thrown error (timeout, network,
non-2xx) carrying the optional error.response data and status. -/
inductive BackendOutcome
  | ok (data : AIData) (status : Nat)
  | httpError (message : String) (respData : Option AIData) (status : Option Nat)
deriving DecidableEq, Repr

/-- Observable effects of the handlers: outbound writes on the socket,
conversation-store writes, and capability invocations. -/
inductive Effect
  | sendFrame (f : Frame)
  | sendBinary (chunk : List Nat)
  | dispatchChunk (chunk : List Nat)
  | callBackend (userId : String) (threadId : String) (message : String)
  | createConversation (c : Conversation)
  | createMessage (m : ChatMessageRec)
  | updateConversation (id : Nat) (lastMessage : String) (lastMessageAt : Nat)
      (messageCount : Nat)
  | ttsRequest (text : String)
  | closeConnection
deriving DecidableEq, Repr

/-- JavaScript truthiness on an optional string: undefined/null and the
empty string are falsy. -/
def jsTruthy (o : Option String) : Option String :=
  match o with
  | none => none
  | some s => if s = "" then none else some s

/-- Per-connection session state (the object stored in this.sessions). -/
structure SessionState where
  userId : Option String
  threadId : Option String
  isTranscribing : Bool
  audioBuffer : List Nat
  conversationId : Option Nat
  model : Option String
  language : Option String
deriving DecidableEq, Repr

/-- The session object built in the connection handler. -/
def initialSession (userId : Option String) : SessionState :=
  { userId := userId
    threadId := none
    isTranscribing := false
    audioBuffer := []
    conversationId := none
    model := none
    language := none }

/-- sendMessage: writes the JSON frame only when readyState is OPEN. -/
def sendMessage (ws : WsState) (f : Frame) : List Effect :=
  match ws with
  | .opened => [Effect.sendFrame f]
  | .closed => []

/-- sendChatMessage never throws: a successful POST yields a success
object, any axios error is caught and converted into a failure object
(data := error.response?.data or null, no processingTime field). -/
def sendChatMessage (outcome : BackendOutcome) (elapsed : Nat) : AIResponse :=
  match outcome with
  | .ok d _ =>
      { success := true, data := some d, response := none, processingTime := some elapsed }
  | .httpError _ respData _ =>
      { success := false, data := respData, response := none, processingTime := none }

/-- The reply-extraction fallback chain used three times by the pipeline:
aiResponse?.data?.response, else aiResponse?.response, else the literal
fallback string. -/
def extractReply (r : AIResponse) : String :=
  match jsTruthy (r.data.bind fun d => d.response) with
  | some s => s
  | none =>
      match jsTruthy r.response with
      | some s => s
      | none => "No response"

/-- One mock TTS PCM buffer.  The source fills each 1024-byte buffer with
16-bit samples of a 440 Hz sine computed in floating point; the sample
values are irrelevant to every frame-level property and are abstracted
to zeros, only the buffer length (1024) is kept. -/
def mockAudioChunk : List Nat := List.replicate 1024 0

/-- simulateTTS: ceil(text.length / 10) chunks of 1024 bytes each. -/
def simulateTTS (text : String) : List (List Nat) :=
  List.replicate ((text.length + 9) / 10) mockAudioChunk

/-- The send loop of generateAndSendTTS: each binary send is guarded by
a readyState check. -/
def ttsSendLoop (ws : WsState) (chunks : List (List Nat)) : List Effect :=
  chunks.foldr
    (fun chunk acc =>
      (match ws with
       | WsState.opened => [Effect.sendBinary chunk]
       | WsState.closed => []) ++ acc)
    []

/-- generateAndSendTTS: invokes the TTS capability on the text, then
sends each chunk as a binary frame through the guarded send loop. -/
def generateAndSendTTS (ws : WsState) (text : String) : List Effect :=
  Effect.ttsRequest text :: ttsSendLoop ws (simulateTTS text)

/-- Environment of one AI-turn pipeline run: the thread id
generateThreadId would produce, the id the store assigns to a newly
created conversation, the store lookup (findOne by threadId and userId),
the backend call outcome, the measured elapsed time, and the clock. -/
structure PipelineEnv where
  generatedThreadId : String
  newConversationId : Nat
  findConversation : String → String → Option Conversation
  backend : BackendOutcome
  elapsed : Nat
  now : Nat

/-- Result of the thread-resolution block of processTranscriptWithAI. -/
structure ThreadResolution where
  session : SessionState
  finalThreadId : String
  conversation : Option Conversation
  effects : List Effect
deriving Repr

/-- Thread resolution: when the session has no (truthy) threadId, a new
one is generated and stored on the session, and for a truthy userId a
new conversation is created (title truncated at 50 chars, messageCount
0) and its id stored on the session; otherwise the conversation is
looked up by the existing threadId and userId. -/
def resolveThread (env : PipelineEnv) (s : SessionState) (transcript : String) :
    ThreadResolution :=
  let userId := jsTruthy s.userId
  match jsTruthy s.threadId with
  | none =>
      let ftid := env.generatedThreadId
      match userId with
      | some uid =>
          let c : Conversation :=
            { id := env.newConversationId
              userId := uid
              threadId := ftid
              title :=
                if 50 < transcript.length then transcript.take 50 ++ "..." else transcript
              lastMessage := "Audio conversation started..."
              lastMessageAt := env.now
              messageCount := 0 }
          { session := { s with threadId := some ftid, conversationId := some c.id }
            finalThreadId := ftid
            conversation := some c
            effects := [Effect.createConversation c] }
      | none =>
          { session := { s with threadId := some ftid }
            finalThreadId := ftid
            conversation := none
            effects := [] }
  | some ftid =>
      match userId with
      | some uid =>
          { session := s
            finalThreadId := ftid
            conversation := env.findConversation ftid uid
            effects := [] }
      | none =>
          { session := s, finalThreadId := ftid, conversation := none, effects := [] }

/-- processTranscriptWithAI, non-throwing path: emit llm_processing,
resolve the thread/conversation, persist the user voice turn when a
user and conversation exist, call the backend (which never throws),
emit llm_complete, persist the assistant text turn and bump the
conversation aggregate by 2 when a user and conversation exist, then
synthesize and stream the reply. -/
def processTranscriptWithAI (ws : WsState) (env : PipelineEnv) (s : SessionState)
    (transcript : String) : SessionState × List Effect :=
  let userId := jsTruthy s.userId
  let eProcessing := sendMessage ws (Frame.llmProcessing "Processing with AI...")
  let r := resolveThread env s transcript
  let eUserMsg : List Effect :=
    match userId, r.conversation with
    | some uid, some c =>
        [Effect.createMessage
          { conversationId := c.id
            userId := uid
            threadId := r.finalThreadId
            messageType := "user"
            contentType := "voice"
            content := transcript
            attachmentType := some "audio/pcm"
            aiResponseTime := none }]
    | _, _ => []
  let eCall := [Effect.callBackend (userId.getD "anonymous") r.finalThreadId transcript]
  let aiResponse := sendChatMessage env.backend env.elapsed
  let eComplete := sendMessage ws (Frame.llmComplete "AI processing complete")
  let reply := extractReply aiResponse
  let eAssistant : List Effect :=
    match userId, r.conversation with
    | some uid, some c =>
        [Effect.createMessage
          { conversationId := c.id
            userId := uid
            threadId := r.finalThreadId
            messageType := "assistant"
            contentType := "text"
            content := reply
            attachmentType := none
            aiResponseTime := some (aiResponse.processingTime.getD 0) },
         Effect.updateConversation c.id (reply.take 100) env.now (c.messageCount + 2)]
    | _, _ => []
  let eTTS := generateAndSendTTS ws reply
  (r.session, eProcessing ++ r.effects ++ eUserMsg ++ eCall ++ eComplete ++ eAssistant ++ eTTS)

/-- A parsed JSON control message: the switch on message.action treats
start, stop and set_thread specially and everything else as unknown.
A set_thread message carries whatever threadId field the client sent
(possibly absent). -/
inductive ControlMessage
  | start (model : Option String) (language : Option String)
  | stop
  | setThread (threadId : Option String)
  | unknown (action : String)
deriving DecidableEq, Repr

/-- startTranscription: set isTranscribing, record model and language
(defaulted when falsy), emit a status acknowledgement. -/
def startTranscription (ws : WsState) (s : SessionState)
    (model language : Option String) : SessionState × List Effect :=
  let m := (jsTruthy model).getD "nova-3"
  let l := (jsTruthy language).getD "en-US"
  ({ s with isTranscribing := true, model := some m, language := some l },
   sendMessage ws
     (Frame.status ("Transcription started with model: " ++ m ++ ", language: " ++ l)))

/-- stopTranscription: clear isTranscribing and the audio buffer, emit a
status acknowledgement. -/
def stopTranscription (ws : WsState) (s : SessionState) : SessionState × List Effect :=
  ({ s with isTranscribing := false, audioBuffer := [] },
   sendMessage ws (Frame.status "Transcription stopped"))

/-- handleControlMessage: dispatch on the action; set_thread assigns
session.threadId unconditionally; an unrecognized action emits one
error frame and changes nothing. -/
def handleControlMessage (ws : WsState) (s : SessionState) (m : ControlMessage) :
    SessionState × List Effect :=
  match m with
  | .start model language => startTranscription ws s model language
  | .stop => stopTranscription ws s
  | .setThread tid => ({ s with threadId := tid }, [])
  | .unknown a => (s, sendMessage ws (Frame.errorFrame ("Unknown action: " ++ a)))

/-- The chunk threshold in handleAudioData (about 200 ms at 16 kHz). -/
def chunkThreshold : Nat := 3200

/-- handleAudioData: drop the frame when not transcribing; otherwise
append it to the buffer and, when the buffer has reached the threshold,
hand the whole accumulated buffer to the STT path and reset the buffer
to empty. -/
def handleAudioData (s : SessionState) (audioData : List Nat) :
    SessionState × List Effect :=
  if !s.isTranscribing then (s, [])
  else
    let buf := s.audioBuffer ++ audioData
    if chunkThreshold ≤ buf.length then
      ({ s with audioBuffer := [] }, [Effect.dispatchChunk buf])
    else
      ({ s with audioBuffer := buf }, [])

/-- Run a sequence of inbound audio frames through handleAudioData,
collecting dispatched chunks in order. -/
def runAudioFrames (s : SessionState) (frames : List (List Nat)) :
    SessionState × List Effect :=
  match frames with
  | [] => (s, [])
  | f :: rest =>
      let r := handleAudioData s f
      let r2 := runAudioFrames r.1 rest
      (r2.1, r.2 ++ r2.2)

/-- Inbound WebSocket data: a binary frame, or a text frame whose JSON
parse either succeeded (some control message) or threw (none). -/
inductive InboundData
  | binary (bytes : List Nat)
  | text (parsed : Option ControlMessage)
deriving Repr

/-- The per-connection message handler: binary data goes to
handleAudioData; a text frame is JSON-parsed, an unparseable payload is
caught and answered with one error frame, a parsed one is dispatched to
handleControlMessage. -/
def onMessage (ws : WsState) (s : SessionState) (d : InboundData) :
    SessionState × List Effect :=
  match d with
  | .binary b => handleAudioData s b
  | .text none => (s, sendMessage ws (Frame.errorFrame "Failed to process message"))
  | .text (some m) => handleControlMessage ws s m

/-- Remove the first occurrence of pat from a character list (the
semantics of the single String.prototype.replace call on the
authorization header). -/
def removeFirstOcc (cs : List Char) (pat : List Char) : List Char :=
  match cs with
  | [] => []
  | c :: rest =>
      if pat.isPrefixOf (c :: rest) then (c :: rest).drop pat.length
      else c :: removeFirstOcc rest pat

/-- Token extraction in verifyClient: the token query parameter when
truthy, else the authorization header with its first Bearer-prefix
occurrence removed (undefined when the header is absent). -/
def extractToken (queryToken authHeader : Option String) : Option String :=
  match jsTruthy queryToken with
  | some t => some t
  | none =>
      authHeader.map fun h =>
        String.mk (removeFirstOcc h.toList "Bearer ".toList)

/-- The JWT payload as used by the service: only the id field is read. -/
structure JwtPayload where
  id : Option String
deriving DecidableEq, Repr

/-- verifyClient: reject when no truthy token was extracted, otherwise
accept exactly when jwt.verify succeeds (verify models jwt.verify with
the configured secret: none means it threw). -/
def verifyClient (verify : String → Option JwtPayload)
    (queryToken authHeader : Option String) : Option JwtPayload :=
  match jsTruthy (extractToken queryToken authHeader) with
  | none => none
  | some t => verify t

/-- The connection handler run by the gateway after verifyClient: on
rejection nothing happens (no upgrade, no session, no frame); on
acceptance a fresh session is built from the authenticated user,
registered under the generated sessionId, and the connected
acknowledgement is sent before any further frame is handled. -/
def acceptConnection (verify : String → Option JwtPayload)
    (queryToken authHeader : Option String) (sessionId : String)
    (sessions : List (String × SessionState)) :
    List (String × SessionState) × List Effect :=
  match verifyClient verify queryToken authHeader with
  | none => (sessions, [])
  | some user =>
      let s := initialSession user.id
      ((sessionId, s) :: sessions,
       sendMessage WsState.opened
         (Frame.connected sessionId user.id "Audio chat connected successfully"))

/-- Map.get on the session registry. -/
def lookupKey (sessions : List (String × SessionState)) (sid : String) :
    Option SessionState :=
  match sessions with
  | [] => none
  | (k, v) :: rest => if k = sid then some v else lookupKey rest sid

/-- Map.delete on the session registry. -/
def eraseKey (sessions : List (String × SessionState)) (sid : String) :
    List (String × SessionState) :=
  sessions.filter fun p => p.1 ≠ sid

/-- cleanupSession: when the session is present, clear its transcribing
flag, release its audio buffer (null, modelled as the empty buffer) and
delete it from the registry, returning the final snapshot of the
removed session; when absent, do nothing. -/
def cleanupSession (sessions : List (String × SessionState)) (sid : String) :
    List (String × SessionState) × Option SessionState :=
  match lookupKey sessions sid with
  | some s =>
      (eraseKey sessions sid, some { s with isTranscribing := false, audioBuffer := [] })
  | none => (sessions, none)

/-- An effect is an outbound write on the socket (JSON frame or binary
audio). -/
def isOutboundWrite : Effect → Bool
  | .sendFrame _ => true
  | .sendBinary _ => true
  | _ => false

/-- The outbound writes among a list of effects. -/
def outboundWrites (es : List Effect) : List Effect :=
  es.filter isOutboundWrite

/-- An effect is an outbound error frame. -/
def isErrorFrame : Effect → Bool
  | .sendFrame (.errorFrame _) => true
  | _ => false

/-- The outbound error frames among a list of effects. -/
def errorFrames (es : List Effect) : List Effect :=
  es.filter isErrorFrame

/-- The message records persisted by a list of effects, in order. -/
def createdMessages (es : List Effect) : List ChatMessageRec :=
  es.filterMap fun e => match e with | .createMessage m => some m | _ => none

/-- The conversation records created by a list of effects, in order. -/
def createdConversations (es : List Effect) : List Conversation :=
  es.filterMap fun e => match e with | .createConversation c => some c | _ => none

/-- The conversation-aggregate updates performed by a list of effects:
(conversation id, lastMessage preview, lastMessageAt, messageCount). -/
def aggregateUpdates (es : List Effect) : List (Nat × String × Nat × Nat) :=
  es.filterMap fun e =>
    match e with | .updateConversation i l t m => some (i, l, t, m) | _ => none

/-- The texts submitted to the TTS capability by a list of effects. -/
def ttsRequests (es : List Effect) : List String :=
  es.filterMap fun e => match e with | .ttsRequest t => some t | _ => none

/-- The backend calls made by a list of effects. -/
def backendCalls (es : List Effect) : List (String × String × String) :=
  es.filterMap fun e =>
    match e with | .callBackend u t m => some (u, t, m) | _ => none

/-- The bytes of all chunks dispatched to the STT path, in order. -/
def dispatchedBytes (es : List Effect) : List Nat :=
  (es.filterMap fun e => match e with | .dispatchChunk c => some c | _ => none).flatten

/-- The backend result carries no reply text: the response field of the
data the result carries is absent or empty (this includes the failure
object built from a caught backend error). -/
def noReplyText : BackendOutcome → Prop
  | .ok d _ => jsTruthy d.response = none
  | .httpError _ rd _ => jsTruthy (rd.bind fun d => d.response) = none

/- Concrete fixtures used by counterexamples and witnesses. -/

/-- An existing conversation record on thread t1 for user u1. -/
def convT1 : Conversation :=
  { id := 7, userId := "u1", threadId := "t1", title := "Care tips",
    lastMessage := "previous", lastMessageAt := 0, messageCount := 5 }

/-- A live session of user u1 already bound to thread t1. -/
def sessionT1 : SessionState :=
  { userId := some "u1", threadId := some "t1", isTranscribing := true,
    audioBuffer := [], conversationId := some 7, model := none, language := none }

/-- A transcribing session of user u1 with no thread yet. -/
def transcribingSession : SessionState :=
  { initialSession (some "u1") with isTranscribing := true }

/-- Pipeline environment in which the backend call times out (axios
throws, sendChatMessage converts the throw into a failure object). -/
def envBackendDown : PipelineEnv :=
  { generatedThreadId := "gen", newConversationId := 9,
    findConversation := fun _ _ => some convT1,
    backend := BackendOutcome.httpError "timeout of 30000ms exceeded" none none,
    elapsed := 0, now := 3 }

/-- Pipeline environment in which the store has no conversation for any
supplied thread, and the backend succeeds. -/
def envNoConv : PipelineEnv :=
  { generatedThreadId := "gen", newConversationId := 9,
    findConversation := fun _ _ => none,
    backend := BackendOutcome.ok { response := some "Eat well" } 200,
    elapsed := 4, now := 3 }

/-- Pipeline environment for a first turn: no stored conversation, a
successful backend reply. -/
def envFirstTurn : PipelineEnv :=
  { generatedThreadId := "gen", newConversationId := 9,
    findConversation := fun _ _ => none,
    backend := BackendOutcome.ok { response := some "Welcome reply" } 200,
    elapsed := 12, now := 3 }

/-- A token validator accepting exactly the token tok1 for user u1. -/
def goodVerify : String → Option JwtPayload :=
  fun t => if t = "tok1" then some { id := some "u1" } else none

/-- A session whose threadId was already assigned the value A. -/
def sessionThreadA : SessionState :=
  { initialSession (some "u1") with threadId := some "A" }

/-! Helper lemmas about the TTS send loop, the audio loop and the
effect filters. -/

theorem jsTruthy_none : jsTruthy none = none := rfl

theorem ttsSendLoop_cons (ws : WsState) (c : List Nat) (rest : List (List Nat)) :
    ttsSendLoop ws (c :: rest)
      = (match ws with
         | WsState.opened => [Effect.sendBinary c]
         | WsState.closed => []) ++ ttsSendLoop ws rest := rfl

theorem ttsSendLoop_closed_eq (chunks : List (List Nat)) :
    ttsSendLoop WsState.closed chunks = [] := by
  induction chunks with
  | nil => rfl
  | cons c rest ih => rw [ttsSendLoop_cons, ih]; rfl

theorem ttsSendLoop_filter (p : Effect → Bool)
    (hp : ∀ c, p (Effect.sendBinary c) = false)
    (ws : WsState) (chunks : List (List Nat)) :
    (ttsSendLoop ws chunks).filter p = [] := by
  induction chunks with
  | nil => rfl
  | cons c rest ih =>
      rw [ttsSendLoop_cons, List.filter_append, ih]
      cases ws <;> simp [hp]

theorem ttsSendLoop_filterMap {α : Type} (f : Effect → Option α)
    (hf : ∀ c, f (Effect.sendBinary c) = none)
    (ws : WsState) (chunks : List (List Nat)) :
    (ttsSendLoop ws chunks).filterMap f = [] := by
  induction chunks with
  | nil => rfl
  | cons c rest ih =>
      rw [ttsSendLoop_cons, List.filterMap_append, ih]
      cases ws <;> simp [hf]

theorem close_not_mem_ttsSendLoop (ws : WsState) (chunks : List (List Nat)) :
    Effect.closeConnection ∉ ttsSendLoop ws chunks := by
  induction chunks with
  | nil => simp [ttsSendLoop]
  | cons c rest ih =>
      rw [ttsSendLoop_cons]
      cases ws <;> simp [ih]

theorem errorFrames_tts (ws : WsState) (t : String) :
    errorFrames (generateAndSendTTS ws t) = [] := by
  simp [generateAndSendTTS, errorFrames, List.filter_cons, isErrorFrame,
    ttsSendLoop_filter (fun e => isErrorFrame e) (fun c => rfl)]

theorem createdMessages_tts (ws : WsState) (t : String) :
    createdMessages (generateAndSendTTS ws t) = [] := by
  simp [generateAndSendTTS, createdMessages, List.filterMap_cons,
    ttsSendLoop_filterMap
      (fun e => match e with | .createMessage m => some m | _ => none)
      (fun c => rfl)]

theorem createdConversations_tts (ws : WsState) (t : String) :
    createdConversations (generateAndSendTTS ws t) = [] := by
  simp [generateAndSendTTS, createdConversations, List.filterMap_cons,
    ttsSendLoop_filterMap
      (fun e => match e with | .createConversation c => some c | _ => none)
      (fun c => rfl)]

theorem aggregateUpdates_tts (ws : WsState) (t : String) :
    aggregateUpdates (generateAndSendTTS ws t) = [] := by
  simp [generateAndSendTTS, aggregateUpdates, List.filterMap_cons,
    ttsSendLoop_filterMap
      (fun e => match e with | .updateConversation i l t m => some (i, l, t, m) | _ => none)
      (fun c => rfl)]

theorem backendCalls_tts (ws : WsState) (t : String) :
    backendCalls (generateAndSendTTS ws t) = [] := by
  simp [generateAndSendTTS, backendCalls, List.filterMap_cons,
    ttsSendLoop_filterMap
      (fun e => match e with | .callBackend u t m => some (u, t, m) | _ => none)
      (fun c => rfl)]

theorem ttsRequests_tts (ws : WsState) (t : String) :
    ttsRequests (generateAndSendTTS ws t) = [t] := by
  simp [generateAndSendTTS, ttsRequests, List.filterMap_cons,
    ttsSendLoop_filterMap
      (fun e => match e with | .ttsRequest t => some t | _ => none)
      (fun c => rfl)]

theorem close_not_mem_tts (ws : WsState) (t : String) :
    Effect.closeConnection ∉ generateAndSendTTS ws t := by
  simp [generateAndSendTTS, close_not_mem_ttsSendLoop]

theorem outboundWrites_tts_closed (t : String) :
    outboundWrites (generateAndSendTTS WsState.closed t) = [] := by
  simp [generateAndSendTTS, outboundWrites, ttsSendLoop_closed_eq, List.filter_cons,
    isOutboundWrite]

theorem dispatchedBytes_append (a b : List Effect) :
    dispatchedBytes (a ++ b) = dispatchedBytes a ++ dispatchedBytes b := by
  simp [dispatchedBytes, List.filterMap_append]

theorem handleAudioData_isTranscribing (s : SessionState) (f : List Nat) :
    (handleAudioData s f).1.isTranscribing = s.isTranscribing := by
  by_cases h : s.isTranscribing
  · simp only [handleAudioData, h, Bool.not_true, Bool.false_eq_true, if_false]
    split <;> rfl
  · simp [handleAudioData, h]

theorem lookupKey_eraseKey (sessions : List (String × SessionState)) (sid : String) :
    lookupKey (eraseKey sessions sid) sid = none := by
  induction sessions with
  | nil => rfl
  | cons p rest ih =>
      by_cases h : p.1 = sid
      · simpa [eraseKey, h] using ih
      · simpa [eraseKey, lookupKey, h] using ih

theorem handleAudioData_dispatch (s : SessionState) (f : List Nat)
    (hs : s.isTranscribing = true)
    (hth : chunkThreshold ≤ (s.audioBuffer ++ f).length) :
    handleAudioData s f
      = ({ s with audioBuffer := [] }, [Effect.dispatchChunk (s.audioBuffer ++ f)]) := by
  simp [handleAudioData, hs]
  simpa using hth

theorem handleAudioData_keep (s : SessionState) (f : List Nat)
    (hs : s.isTranscribing = true)
    (hth : (s.audioBuffer ++ f).length < chunkThreshold) :
    handleAudioData s f = ({ s with audioBuffer := s.audioBuffer ++ f }, []) := by
  simp [handleAudioData, hs, Nat.not_le.mpr hth]
  simpa using hth

theorem runAudio_conservation (frames : List (List Nat)) :
    ∀ s : SessionState, s.isTranscribing = true →
      dispatchedBytes (runAudioFrames s frames).2 ++ (runAudioFrames s frames).1.audioBuffer
        = s.audioBuffer ++ frames.flatten := by
  induction frames with
  | nil =>
      intro s _
      simp [runAudioFrames, dispatchedBytes]
  | cons f rest ih =>
      intro s hs
      by_cases hth : chunkThreshold ≤ (s.audioBuffer ++ f).length
      · have hr := handleAudioData_dispatch s f hs hth
        have ih2 := ih { s with audioBuffer := [] } hs
        simp only [runAudioFrames, hr]
        rw [dispatchedBytes_append, List.append_assoc, ih2]
        simp [dispatchedBytes, List.flatten_cons]
      · have hr := handleAudioData_keep s f hs (Nat.not_le.mp hth)
        have ih2 := ih { s with audioBuffer := s.audioBuffer ++ f } hs
        simp only [runAudioFrames, hr]
        rw [List.nil_append, ih2]
        simp [List.flatten_cons]

/-- The effects of thread resolution are either nothing or the creation
of one conversation record. -/
theorem resolveThread_effects_shape (env : PipelineEnv) (s : SessionState) (t : String) :
    (resolveThread env s t).effects = []
    ∨ ∃ c, (resolveThread env s t).effects = [Effect.createConversation c] := by
  rcases ht : jsTruthy s.threadId with _ | tid <;>
    rcases hu : jsTruthy s.userId with _ | uid <;>
    simp [resolveThread, ht, hu]

/-- Thread resolution leaves the transcribing flag unchanged. -/
theorem resolveThread_isTranscribing (env : PipelineEnv) (s : SessionState) (t : String) :
    (resolveThread env s t).session.isTranscribing = s.isTranscribing := by
  rcases ht : jsTruthy s.threadId with _ | tid <;>
    rcases hu : jsTruthy s.userId with _ | uid <;>
    simp [resolveThread, ht, hu]

/-- The non-throwing AI-turn pipeline never emits an error frame: the
backend client catches its own failures and returns a failure object,
and every other step on this path is a plain store write or send. -/
theorem pipeline_errorFrames (ws : WsState) (env : PipelineEnv) (s : SessionState)
    (t : String) :
    errorFrames (processTranscriptWithAI ws env s t).2 = [] := by
  rcases resolveThread_effects_shape env s t with h0 | ⟨c0, h0⟩ <;>
    rcases hu : jsTruthy s.userId with _ | uid <;>
    rcases hc : (resolveThread env s t).conversation with _ | c <;>
    cases ws <;>
    simp [processTranscriptWithAI, h0, hu, hc, sendMessage, errorFrames, isErrorFrame,
      List.filter_append, List.filter_cons, generateAndSendTTS,
      ttsSendLoop_filter (fun e => isErrorFrame e) (fun c => rfl)]

/-- The AI-turn pipeline never closes the connection. -/
theorem pipeline_no_close (ws : WsState) (env : PipelineEnv) (s : SessionState)
    (t : String) :
    Effect.closeConnection ∉ (processTranscriptWithAI ws env s t).2 := by
  rcases resolveThread_effects_shape env s t with h0 | ⟨c0, h0⟩ <;>
    rcases hu : jsTruthy s.userId with _ | uid <;>
    rcases hc : (resolveThread env s t).conversation with _ | c <;>
    cases ws <;>
    simp [processTranscriptWithAI, h0, hu, hc, sendMessage, generateAndSendTTS,
      close_not_mem_ttsSendLoop]

/-- The AI-turn pipeline leaves the transcribing flag unchanged. -/
theorem pipeline_isTranscribing (ws : WsState) (env : PipelineEnv) (s : SessionState)
    (t : String) :
    (processTranscriptWithAI ws env s t).1.isTranscribing = s.isTranscribing := by
  rcases hu : jsTruthy s.userId with _ | uid <;>
    rcases hc : (resolveThread env s t).conversation with _ | c <;>
    simp [processTranscriptWithAI, hu, hc, resolveThread_isTranscribing]

/-- On an open connection the pipeline always emits the llm_complete
frame (also when the backend call failed). -/
theorem pipeline_llmComplete (env : PipelineEnv) (s : SessionState) (t : String) :
    Effect.sendFrame (Frame.llmComplete "AI processing complete")
      ∈ (processTranscriptWithAI WsState.opened env s t).2 := by
  rcases hu : jsTruthy s.userId with _ | uid <;>
    rcases hc : (resolveThread env s t).conversation with _ | c <;>
    simp [processTranscriptWithAI, hu, hc, sendMessage]

/-- The session the pipeline returns is the session thread resolution
produced. -/
theorem pipeline_session (ws : WsState) (env : PipelineEnv) (s : SessionState)
    (t : String) :
    (processTranscriptWithAI ws env s t).1 = (resolveThread env s t).session := by
  rcases hu : jsTruthy s.userId with _ | uid <;>
    rcases hc : (resolveThread env s t).conversation with _ | c <;>
    simp [processTranscriptWithAI, hu, hc]

/-- When the session already has a truthy threadId, thread resolution
does not touch the session. -/
theorem resolveThread_session_of_assigned (env : PipelineEnv) (s : SessionState)
    (t tid : String) (ht : jsTruthy s.threadId = some tid) :
    (resolveThread env s t).session = s := by
  rcases hu : jsTruthy s.userId with _ | uid <;> simp [resolveThread, ht, hu]

/-- Audio handling never touches the threadId. -/
theorem handleAudioData_threadId (s : SessionState) (f : List Nat) :
    (handleAudioData s f).1.threadId = s.threadId := by
  by_cases h : s.isTranscribing
  · simp only [handleAudioData, h, Bool.not_true, Bool.false_eq_true, if_false]
    split <;> rfl
  · simp [handleAudioData, h]

/-- C1 (corrected): when the backend call fails or times out, the
backend client converts the failure into a failure result object
instead of throwing, so the session handler emits zero error frames
(not exactly one), still emits the llm_complete frame, never closes
the connection, and the session remains open to accept the next audio
frame (the transcribing flag is unchanged). -/
theorem c1_backend_failure_turn (env : PipelineEnv) (s : SessionState)
    (t m : String) (rd : Option AIData) (st : Option Nat)
    (hb : env.backend = BackendOutcome.httpError m rd st) :
    (sendChatMessage env.backend env.elapsed).success = false
    ∧ errorFrames (processTranscriptWithAI WsState.opened env s t).2 = []
    ∧ Effect.sendFrame (Frame.llmComplete "AI processing complete")
        ∈ (processTranscriptWithAI WsState.opened env s t).2
    ∧ Effect.closeConnection ∉ (processTranscriptWithAI WsState.opened env s t).2
    ∧ (processTranscriptWithAI WsState.opened env s t).1.isTranscribing
        = s.isTranscribing := by
  refine ⟨?_, pipeline_errorFrames _ _ _ _, pipeline_llmComplete _ _ _,
    pipeline_no_close _ _ _ _, pipeline_isTranscribing _ _ _ _⟩
  rw [hb]; rfl

/-- Witness for C1 at a concrete timed-out backend call. -/
theorem c1_backend_failure_turn_witness :
    (sendChatMessage envBackendDown.backend envBackendDown.elapsed).success = false
    ∧ errorFrames (processTranscriptWithAI WsState.opened envBackendDown sessionT1 "hi").2
        = []
    ∧ Effect.sendFrame (Frame.llmComplete "AI processing complete")
        ∈ (processTranscriptWithAI WsState.opened envBackendDown sessionT1 "hi").2
    ∧ Effect.closeConnection
        ∉ (processTranscriptWithAI WsState.opened envBackendDown sessionT1 "hi").2
    ∧ (processTranscriptWithAI WsState.opened envBackendDown sessionT1 "hi").1.isTranscribing
        = sessionT1.isTranscribing :=
  c1_backend_failure_turn envBackendDown sessionT1 "hi"
    "timeout of 30000ms exceeded" none none rfl

/-- C1 counterexample: on a concrete timed-out backend call the pipeline
emits zero error frames, refuting that exactly one error frame is
emitted. -/
theorem c1_counterexample :
    envBackendDown.backend
      = BackendOutcome.httpError "timeout of 30000ms exceeded" none none
    ∧ (errorFrames
        (processTranscriptWithAI WsState.opened envBackendDown sessionT1 "hi").2).length
        = 0
    ∧ (errorFrames
        (processTranscriptWithAI WsState.opened envBackendDown sessionT1 "hi").2).length
        ≠ 1 := by
  refine ⟨rfl, ?_, ?_⟩ <;>
    simp [pipeline_errorFrames WsState.opened envBackendDown sessionT1 "hi"]

/-- C2 (corrected): while transcribing, a chunk is dispatched on exactly
each append that brings the buffer to at least the 3200-byte threshold;
the dispatched chunk is the entire accumulated buffer and the buffer is
reset to empty (not to the remainder modulo the threshold), while
appends below the threshold keep accumulating; the concatenation of
all dispatched chunks plus the final buffer remainder equals the total
bytes received. -/
theorem c2_chunking (s : SessionState) (frames : List (List Nat)) (f : List Nat)
    (hs : s.isTranscribing = true) :
    dispatchedBytes (runAudioFrames s frames).2 ++ (runAudioFrames s frames).1.audioBuffer
      = s.audioBuffer ++ frames.flatten
    ∧ (chunkThreshold ≤ (s.audioBuffer ++ f).length →
        handleAudioData s f
          = ({ s with audioBuffer := [] }, [Effect.dispatchChunk (s.audioBuffer ++ f)]))
    ∧ ((s.audioBuffer ++ f).length < chunkThreshold →
        handleAudioData s f = ({ s with audioBuffer := s.audioBuffer ++ f }, [])) :=
  ⟨runAudio_conservation frames s hs,
   fun h => handleAudioData_dispatch s f hs h,
   fun h => handleAudioData_keep s f hs h⟩

/-- Witness for C2 on one threshold-sized frame. -/
theorem c2_chunking_witness :
    dispatchedBytes (runAudioFrames transcribingSession [List.replicate 3200 0]).2
        ++ (runAudioFrames transcribingSession [List.replicate 3200 0]).1.audioBuffer
      = transcribingSession.audioBuffer ++ [List.replicate 3200 0].flatten :=
  (c2_chunking transcribingSession [List.replicate 3200 0] [] rfl).1

/-- C2 counterexample: a single 4000-byte frame triggers one dispatch and
leaves the buffer empty, although 4000 mod 3200 = 800, refuting that
the buffer length after a dispatch equals the accumulated length modulo
the threshold. -/
theorem c2_counterexample :
    (runAudioFrames transcribingSession [List.replicate 4000 0]).2
      = [Effect.dispatchChunk (List.replicate 4000 0)]
    ∧ (runAudioFrames transcribingSession [List.replicate 4000 0]).1.audioBuffer.length = 0
    ∧ (runAudioFrames transcribingSession [List.replicate 4000 0]).1.audioBuffer.length
        ≠ 4000 % chunkThreshold := by
  have hbuf : transcribingSession.audioBuffer = [] := rfl
  have hth : chunkThreshold ≤
      (transcribingSession.audioBuffer ++ List.replicate 4000 (0 : Nat)).length := by
    rw [hbuf, List.nil_append, List.length_replicate]
    norm_num [chunkThreshold]
  have h := handleAudioData_dispatch transcribingSession (List.replicate 4000 0) rfl hth
  rw [hbuf, List.nil_append] at h
  have hrun : runAudioFrames transcribingSession [List.replicate 4000 (0 : Nat)]
      = ({ transcribingSession with audioBuffer := [] },
         [Effect.dispatchChunk (List.replicate 4000 0)]) := by
    simp only [runAudioFrames, h, List.append_nil]
  refine ⟨?_, ?_, ?_⟩
  · rw [hrun]
  · rw [hrun]
    rfl
  · rw [hrun]
    show (0 : Nat) ≠ 4000 % chunkThreshold
    norm_num [chunkThreshold]

/-- C3 (corrected): once assigned, threadId is never reassigned by the
AI-turn pipeline (which only generates an id when threadId is unset),
nor by start or stop control messages or by audio handling; however the
set_thread control message assigns threadId unconditionally, so a
client can reassign it at any time. -/
theorem c3_threadId_stability (ws : WsState) (env : PipelineEnv) (s : SessionState)
    (t tid : String) (ht : jsTruthy s.threadId = some tid) :
    (processTranscriptWithAI ws env s t).1.threadId = s.threadId
    ∧ (∀ m l, (startTranscription ws s m l).1.threadId = s.threadId)
    ∧ (stopTranscription ws s).1.threadId = s.threadId
    ∧ (∀ b, (handleAudioData s b).1.threadId = s.threadId)
    ∧ (∀ tid2, (handleControlMessage ws s (ControlMessage.setThread tid2)).1.threadId
        = tid2) := by
  refine ⟨?_, fun m l => rfl, rfl, fun b => handleAudioData_threadId s b, fun tid2 => rfl⟩
  rw [pipeline_session, resolveThread_session_of_assigned env s t tid ht]

/-- Witness for C3 on a session already bound to thread t1. -/
theorem c3_threadId_stability_witness :
    (processTranscriptWithAI WsState.opened envBackendDown sessionT1 "hi").1.threadId
      = sessionT1.threadId
    ∧ (∀ m l, (startTranscription WsState.opened sessionT1 m l).1.threadId
        = sessionT1.threadId)
    ∧ (stopTranscription WsState.opened sessionT1).1.threadId = sessionT1.threadId
    ∧ (∀ b, (handleAudioData sessionT1 b).1.threadId = sessionT1.threadId)
    ∧ (∀ tid2,
        (handleControlMessage WsState.opened sessionT1
          (ControlMessage.setThread tid2)).1.threadId = tid2) :=
  c3_threadId_stability WsState.opened envBackendDown sessionT1 "hi" "t1" rfl

/-- C3 counterexample: a set_thread control message overwrites an already
assigned threadId A with a different value B. -/
theorem c3_counterexample :
    sessionThreadA.threadId = some "A"
    ∧ (handleControlMessage WsState.opened sessionThreadA
        (ControlMessage.setThread (some "B"))).1.threadId = some "B"
    ∧ (some "B" : Option String) ≠ some "A" := by
  refine ⟨rfl, rfl, by decide⟩

/-- C4 (corrected): when a session has a supplied threadId but the store
holds no conversation for that threadId and userId, the turn is not
aborted and no failure is reported: persistence is skipped (no message
created, no conversation created or updated, no error frame), but the
backend call is still made, llm_complete is still emitted, synthesis
still submits the reply to TTS, and the session remains open. -/
theorem c4_missing_conversation (env : PipelineEnv) (s : SessionState)
    (t tid uid : String)
    (ht : jsTruthy s.threadId = some tid) (hu : jsTruthy s.userId = some uid)
    (hc : env.findConversation tid uid = none) :
    createdMessages (processTranscriptWithAI WsState.opened env s t).2 = []
    ∧ createdConversations (processTranscriptWithAI WsState.opened env s t).2 = []
    ∧ aggregateUpdates (processTranscriptWithAI WsState.opened env s t).2 = []
    ∧ errorFrames (processTranscriptWithAI WsState.opened env s t).2 = []
    ∧ backendCalls (processTranscriptWithAI WsState.opened env s t).2 = [(uid, tid, t)]
    ∧ ttsRequests (processTranscriptWithAI WsState.opened env s t).2
        = [extractReply (sendChatMessage env.backend env.elapsed)]
    ∧ Effect.sendFrame (Frame.llmComplete "AI processing complete")
        ∈ (processTranscriptWithAI WsState.opened env s t).2
    ∧ Effect.closeConnection ∉ (processTranscriptWithAI WsState.opened env s t).2 := by
  have hr : resolveThread env s t
      = { session := s, finalThreadId := tid, conversation := none, effects := [] } := by
    simp [resolveThread, ht, hu, hc]
  refine ⟨?_, ?_, ?_, ?_, ?_, ?_, ?_, ?_⟩ <;>
    simp [processTranscriptWithAI, hr, hu, sendMessage, generateAndSendTTS,
      createdMessages, createdConversations, aggregateUpdates, errorFrames, backendCalls,
      ttsRequests, isErrorFrame, List.filter_append, List.filter_cons,
      List.filterMap_append, List.filterMap_cons,
      ttsSendLoop_filter (fun e => isErrorFrame e) (fun c => rfl),
      ttsSendLoop_filterMap
        (fun e => match e with | Effect.createMessage m => some m | _ => none)
        (fun c => rfl),
      ttsSendLoop_filterMap
        (fun e => match e with | Effect.createConversation c => some c | _ => none)
        (fun c => rfl),
      ttsSendLoop_filterMap
        (fun e => match e with
          | Effect.updateConversation i l t m => some (i, l, t, m) | _ => none)
        (fun c => rfl),
      ttsSendLoop_filterMap
        (fun e => match e with | Effect.callBackend u t m => some (u, t, m) | _ => none)
        (fun c => rfl),
      ttsSendLoop_filterMap
        (fun e => match e with | Effect.ttsRequest t => some t | _ => none)
        (fun c => rfl),
      close_not_mem_ttsSendLoop]

/-- Witness for C4 at a concrete store with no conversation record. -/
theorem c4_missing_conversation_witness :
    createdMessages (processTranscriptWithAI WsState.opened envNoConv sessionT1 "hi").2 = []
    ∧ createdConversations
        (processTranscriptWithAI WsState.opened envNoConv sessionT1 "hi").2 = []
    ∧ aggregateUpdates (processTranscriptWithAI WsState.opened envNoConv sessionT1 "hi").2
        = []
    ∧ errorFrames (processTranscriptWithAI WsState.opened envNoConv sessionT1 "hi").2 = []
    ∧ backendCalls (processTranscriptWithAI WsState.opened envNoConv sessionT1 "hi").2
        = [("u1", "t1", "hi")]
    ∧ ttsRequests (processTranscriptWithAI WsState.opened envNoConv sessionT1 "hi").2
        = [extractReply (sendChatMessage envNoConv.backend envNoConv.elapsed)]
    ∧ Effect.sendFrame (Frame.llmComplete "AI processing complete")
        ∈ (processTranscriptWithAI WsState.opened envNoConv sessionT1 "hi").2
    ∧ Effect.closeConnection
        ∉ (processTranscriptWithAI WsState.opened envNoConv sessionT1 "hi").2 :=
  c4_missing_conversation envNoConv sessionT1 "hi" "t1" "u1" rfl rfl rfl

/-- C4 counterexample: with no conversation record for thread t1 of user
u1, the pipeline still calls the backend, reports no failure, and still
synthesizes speech, refuting that the turn is aborted with the failure
reported. -/
theorem c4_counterexample :
    envNoConv.findConversation "t1" "u1" = none
    ∧ backendCalls (processTranscriptWithAI WsState.opened envNoConv sessionT1 "hi").2
        = [("u1", "t1", "hi")]
    ∧ (errorFrames
        (processTranscriptWithAI WsState.opened envNoConv sessionT1 "hi").2).length = 0
    ∧ ttsRequests (processTranscriptWithAI WsState.opened envNoConv sessionT1 "hi").2
        = ["Eat well"] := by
  refine ⟨rfl, rfl, rfl, rfl⟩

/-- The extracted reply when the backend result carries no reply text. -/
theorem extractReply_noReply (o : BackendOutcome) (e : Nat) (h : noReplyText o) :
    extractReply (sendChatMessage o e) = "No response" := by
  cases o with
  | ok d st =>
      simp only [noReplyText] at h
      simp [sendChatMessage, extractReply, h, jsTruthy_none]
  | httpError m rd st =>
      simp only [noReplyText] at h
      simp [sendChatMessage, extractReply, h, jsTruthy_none]

/-- C5: the first finalized transcript on a session with no threadId and
an authenticated user creates one conversation (messageCount 0),
persists exactly a voice user turn holding the transcript and a text
assistant turn holding the reply, and updates the aggregate to a
message count of 0 + 2. -/
theorem c5_first_turn (env : PipelineEnv) (s : SessionState) (t uid r : String)
    (d : AIData) (st : Nat)
    (ht : jsTruthy s.threadId = none) (hu : jsTruthy s.userId = some uid)
    (hb : env.backend = BackendOutcome.ok d st) (hr : jsTruthy d.response = some r) :
    createdConversations (processTranscriptWithAI WsState.opened env s t).2
      = [{ id := env.newConversationId, userId := uid, threadId := env.generatedThreadId,
           title := if 50 < t.length then t.take 50 ++ "..." else t,
           lastMessage := "Audio conversation started...", lastMessageAt := env.now,
           messageCount := 0 }]
    ∧ createdMessages (processTranscriptWithAI WsState.opened env s t).2
        = [{ conversationId := env.newConversationId, userId := uid,
             threadId := env.generatedThreadId, messageType := "user",
             contentType := "voice", content := t, attachmentType := some "audio/pcm",
             aiResponseTime := none },
           { conversationId := env.newConversationId, userId := uid,
             threadId := env.generatedThreadId, messageType := "assistant",
             contentType := "text", content := r, attachmentType := none,
             aiResponseTime := some env.elapsed }]
    ∧ aggregateUpdates (processTranscriptWithAI WsState.opened env s t).2
        = [(env.newConversationId, r.take 100, env.now, 0 + 2)]
    ∧ (processTranscriptWithAI WsState.opened env s t).1.threadId
        = some env.generatedThreadId := by
  have hreply : extractReply (sendChatMessage env.backend env.elapsed) = r := by
    rw [hb]
    simp [sendChatMessage, extractReply, hr]
  have hpt : (sendChatMessage env.backend env.elapsed).processingTime = some env.elapsed := by
    rw [hb]
    rfl
  have hrt : resolveThread env s t
      = { session :=
            { s with threadId := some env.generatedThreadId,
                     conversationId := some env.newConversationId }
          finalThreadId := env.generatedThreadId
          conversation := some
            { id := env.newConversationId, userId := uid,
              threadId := env.generatedThreadId,
              title := if 50 < t.length then t.take 50 ++ "..." else t,
              lastMessage := "Audio conversation started...", lastMessageAt := env.now,
              messageCount := 0 }
          effects := [Effect.createConversation
            { id := env.newConversationId, userId := uid,
              threadId := env.generatedThreadId,
              title := if 50 < t.length then t.take 50 ++ "..." else t,
              lastMessage := "Audio conversation started...", lastMessageAt := env.now,
              messageCount := 0 }] } := by
    simp [resolveThread, ht, hu]
  refine ⟨?_, ?_, ?_, ?_⟩ <;>
    simp [processTranscriptWithAI, hrt, hu, hreply, hpt, sendMessage, generateAndSendTTS,
      createdMessages, createdConversations, aggregateUpdates,
      List.filterMap_append, List.filterMap_cons,
      ttsSendLoop_filterMap
        (fun e => match e with | Effect.createMessage m => some m | _ => none)
        (fun c => rfl),
      ttsSendLoop_filterMap
        (fun e => match e with | Effect.createConversation c => some c | _ => none)
        (fun c => rfl),
      ttsSendLoop_filterMap
        (fun e => match e with
          | Effect.updateConversation i l t m => some (i, l, t, m) | _ => none)
        (fun c => rfl)]

/-- Witness for C5 on a fresh transcribing session and a successful
backend reply. -/
theorem c5_first_turn_witness :
    createdConversations
        (processTranscriptWithAI WsState.opened envFirstTurn transcribingSession "hello").2
      = [{ id := envFirstTurn.newConversationId, userId := "u1",
           threadId := envFirstTurn.generatedThreadId,
           title := if 50 < "hello".length then "hello".take 50 ++ "..." else "hello",
           lastMessage := "Audio conversation started...",
           lastMessageAt := envFirstTurn.now, messageCount := 0 }]
    ∧ createdMessages
        (processTranscriptWithAI WsState.opened envFirstTurn transcribingSession "hello").2
        = [{ conversationId := envFirstTurn.newConversationId, userId := "u1",
             threadId := envFirstTurn.generatedThreadId, messageType := "user",
             contentType := "voice", content := "hello",
             attachmentType := some "audio/pcm", aiResponseTime := none },
           { conversationId := envFirstTurn.newConversationId, userId := "u1",
             threadId := envFirstTurn.generatedThreadId, messageType := "assistant",
             contentType := "text", content := "Welcome reply", attachmentType := none,
             aiResponseTime := some envFirstTurn.elapsed }]
    ∧ aggregateUpdates
        (processTranscriptWithAI WsState.opened envFirstTurn transcribingSession "hello").2
        = [(envFirstTurn.newConversationId, "Welcome reply".take 100, envFirstTurn.now,
            0 + 2)]
    ∧ (processTranscriptWithAI WsState.opened envFirstTurn
        transcribingSession "hello").1.threadId = some envFirstTurn.generatedThreadId :=
  c5_first_turn envFirstTurn transcribingSession "hello" "u1" "Welcome reply"
    { response := some "Welcome reply" } 200 rfl rfl rfl rfl

/-- C10: whenever the backend result carries no reply text (including
the failure object a caught backend error produces), the persisted
assistant turn and the text submitted to TTS are both the literal
fallback string, and llm_complete is still emitted. -/
theorem c10_no_response_fallback (env : PipelineEnv) (s : SessionState)
    (t tid uid : String) (c : Conversation)
    (ht : jsTruthy s.threadId = some tid) (hu : jsTruthy s.userId = some uid)
    (hc : env.findConversation tid uid = some c)
    (hn : noReplyText env.backend) :
    (createdMessages (processTranscriptWithAI WsState.opened env s t).2).map
        (fun m => (m.messageType, m.contentType, m.content))
      = [("user", "voice", t), ("assistant", "text", "No response")]
    ∧ ttsRequests (processTranscriptWithAI WsState.opened env s t).2 = ["No response"]
    ∧ Effect.sendFrame (Frame.llmComplete "AI processing complete")
        ∈ (processTranscriptWithAI WsState.opened env s t).2 := by
  have hreply := extractReply_noReply env.backend env.elapsed hn
  have hrt : resolveThread env s t
      = { session := s, finalThreadId := tid, conversation := some c, effects := [] } := by
    simp [resolveThread, ht, hu, hc]
  refine ⟨?_, ?_, ?_⟩ <;>
    simp [processTranscriptWithAI, hrt, hu, hreply, sendMessage, generateAndSendTTS,
      createdMessages, ttsRequests, List.filterMap_append, List.filterMap_cons,
      ttsSendLoop_filterMap
        (fun e => match e with | Effect.createMessage m => some m | _ => none)
        (fun c => rfl),
      ttsSendLoop_filterMap
        (fun e => match e with | Effect.ttsRequest t => some t | _ => none)
        (fun c => rfl)]

/-- Witness for C10 at a concrete timed-out backend call whose failure
object carries no data. -/
theorem c10_no_response_fallback_witness :
    (createdMessages
        (processTranscriptWithAI WsState.opened envBackendDown sessionT1 "hi").2).map
        (fun m => (m.messageType, m.contentType, m.content))
      = [("user", "voice", "hi"), ("assistant", "text", "No response")]
    ∧ ttsRequests (processTranscriptWithAI WsState.opened envBackendDown sessionT1 "hi").2
        = ["No response"]
    ∧ Effect.sendFrame (Frame.llmComplete "AI processing complete")
        ∈ (processTranscriptWithAI WsState.opened envBackendDown sessionT1 "hi").2 :=
  c10_no_response_fallback envBackendDown sessionT1 "hi" "t1" "u1" convT1 rfl rfl rfl rfl

/-- C6: a connection request without a valid bearer credential is
rejected before the upgrade with no session created, no registry entry
and no frame sent; a valid credential yields exactly one new registered
session and the connected acknowledgement as the only frame sent before
further frames are handled. -/
theorem c6_connection_gateway (verify : String → Option JwtPayload)
    (qt ah : Option String) (sid : String)
    (sessions : List (String × SessionState)) :
    (verifyClient verify qt ah = none →
      acceptConnection verify qt ah sid sessions = (sessions, []))
    ∧ (∀ u, verifyClient verify qt ah = some u →
        acceptConnection verify qt ah sid sessions
          = ((sid, initialSession u.id) :: sessions,
             [Effect.sendFrame
               (Frame.connected sid u.id "Audio chat connected successfully")])
        ∧ ((sid, initialSession u.id) :: sessions).length = sessions.length + 1) := by
  constructor
  · intro h
    simp [acceptConnection, h]
  · intro u h
    constructor
    · simp [acceptConnection, h, sendMessage]
    · simp

/-- Witness for C6: a rejected tokenless request and an accepted request
with the valid token. -/
theorem c6_connection_gateway_witness :
    acceptConnection goodVerify none none "sid1" [] = ([], [])
    ∧ acceptConnection goodVerify (some "tok1") none "sid1" []
        = ([("sid1", initialSession (some "u1"))],
           [Effect.sendFrame
             (Frame.connected "sid1" (some "u1") "Audio chat connected successfully")]) :=
  ⟨(c6_connection_gateway goodVerify none none "sid1" []).1 rfl,
   ((c6_connection_gateway goodVerify (some "tok1") none "sid1" []).2
     { id := some "u1" } rfl).1⟩

/-- C7: an unparseable control frame and a control frame with an
unrecognized action each produce exactly one structured error frame,
leave the session state fully unchanged, and never close the
connection. -/
theorem c7_malformed_control (s : SessionState) (a : String) :
    onMessage WsState.opened s (InboundData.text none)
      = (s, [Effect.sendFrame (Frame.errorFrame "Failed to process message")])
    ∧ onMessage WsState.opened s (InboundData.text (some (ControlMessage.unknown a)))
        = (s, [Effect.sendFrame (Frame.errorFrame ("Unknown action: " ++ a))])
    ∧ Effect.closeConnection ∉ (onMessage WsState.opened s (InboundData.text none)).2
    ∧ Effect.closeConnection
        ∉ (onMessage WsState.opened s
            (InboundData.text (some (ControlMessage.unknown a)))).2 := by
  refine ⟨rfl, rfl, ?_, ?_⟩ <;> simp [onMessage, handleControlMessage, sendMessage]

/-- C8: once the connection is marked closed, the closed-check guards in
sendMessage and in the TTS send loop suppress every outbound write:
no handler emits a JSON frame or a binary audio chunk. -/
theorem c8_no_write_after_close (f : Frame) (text : String) (env : PipelineEnv)
    (s : SessionState) (t : String) (d : InboundData) :
    sendMessage WsState.closed f = []
    ∧ outboundWrites (generateAndSendTTS WsState.closed text) = []
    ∧ outboundWrites (processTranscriptWithAI WsState.closed env s t).2 = []
    ∧ outboundWrites (onMessage WsState.closed s d).2 = [] := by
  refine ⟨rfl, ?_, ?_, ?_⟩
  · simp [generateAndSendTTS, ttsSendLoop_closed_eq, outboundWrites, isOutboundWrite,
      List.filter_cons]
  · rcases resolveThread_effects_shape env s t with h0 | ⟨c0, h0⟩ <;>
      rcases hu : jsTruthy s.userId with _ | uid <;>
      rcases hc : (resolveThread env s t).conversation with _ | c <;>
      simp [processTranscriptWithAI, h0, hu, hc, sendMessage, generateAndSendTTS,
        ttsSendLoop_closed_eq, outboundWrites, isOutboundWrite,
        List.filter_append, List.filter_cons]
  · cases d with
    | binary b =>
        simp only [onMessage]
        by_cases hbt : s.isTranscribing = true
        · by_cases hth : chunkThreshold ≤ (s.audioBuffer ++ b).length
          · simp [handleAudioData_dispatch s b hbt hth, outboundWrites, isOutboundWrite]
          · simp [handleAudioData_keep s b hbt (Nat.not_le.mp hth), outboundWrites]
        · rw [Bool.not_eq_true] at hbt
          simp [handleAudioData, hbt, outboundWrites]
    | text p =>
        cases p with
        | none => rfl
        | some m =>
            cases m <;>
              simp [onMessage, handleControlMessage, startTranscription,
                stopTranscription, sendMessage, outboundWrites, isOutboundWrite]

/-- C9: session cleanup is idempotent: after one cleanup the session is
absent from the registry, the removed session snapshot has its
transcribing flag cleared and its buffer released, and a second cleanup
of the same session id is a no-op returning the same registry. -/
theorem c9_cleanup_idempotent (sessions : List (String × SessionState)) (sid : String) :
    cleanupSession (cleanupSession sessions sid).1 sid
      = ((cleanupSession sessions sid).1, none)
    ∧ lookupKey (cleanupSession sessions sid).1 sid = none
    ∧ (cleanupSession sessions sid).2.elim True
        (fun s => s.isTranscribing = false ∧ s.audioBuffer = []) := by
  rcases h : lookupKey sessions sid with _ | s
  · refine ⟨?_, ?_, ?_⟩ <;> simp [cleanupSession, h]
  · refine ⟨?_, ?_, ?_⟩ <;> simp [cleanupSession, h, lookupKey_eraseKey]

end Imago
